import Mathlib

/-!
# Verification of the Veramo backend service custody/resolution layer

Shallow embedding of the decision layer of `server-decentralized.js` and
`server.js` (peter-mwau/veramo_backend_service): the network configuration
resolver, the registry deployment prober, the `/did/create` custody
classifier with its in-memory `DIDRegistry` store, the `/did/:did/resolve`
fallback logic, and the `/credential/verify-skale` fallback verification.

External collaborators (the Veramo agent, the JSON-RPC chain, JWT decoding)
are modelled as oracle parameters; JavaScript truthiness, `||` defaulting,
`String.split`, `String.includes` and the wallet-address regex are embedded
as executable Lean functions.
-/

namespace Veramo

deriving instance DecidableEq for Except

/-- JavaScript truthiness of an optional string field of a JSON body:
`undefined`/absent and the empty string are falsy, every other string is
truthy. -/
def truthyOpt : Option String → Bool
  | none => false
  | some s => s ≠ ""

/-- JavaScript `a || b` for an optional/env string `a` with default `b`:
the default is used when `a` is absent or empty (falsy). -/
def jsOr (a : Option String) (b : String) : String :=
  match a with
  | none => b
  | some s => if s = "" then b else s

/-- Character-level splitter used to embed JavaScript `String.split(sep)`
with a single-character separator (structural recursion, kernel-reducible,
unlike core `String.splitOn`). `acc` holds the current chunk reversed. -/
def splitCharAux (c : Char) : List Char → List Char → List (List Char)
  | acc, [] => [acc.reverse]
  | acc, x :: xs =>
      if x = c then acc.reverse :: splitCharAux c [] xs
      else splitCharAux c (x :: acc) xs

/-- JavaScript `s.split(c)` for a one-character separator `c`. -/
def jsSplit (c : Char) (s : String) : List String :=
  (splitCharAux c [] s.data).map List.asString

/-- JavaScript `s.startsWith(p)`. -/
def jsStartsWith (s p : String) : Bool :=
  p.data.isPrefixOf s.data

/-- Whether `sub` occurs as a contiguous sublist of `l`. -/
def listContains (sub : List Char) : List Char → Bool
  | [] => sub.isEmpty
  | c :: t => sub.isPrefixOf (c :: t) || listContains sub t

/-- JavaScript `s.includes(sub)`. -/
def jsIncludes (s sub : String) : Bool :=
  listContains sub.data s.data

/-- Hex digit as accepted by the character class `[a-fA-F0-9]` of the
wallet-address regex. -/
def isHexDigitJs (c : Char) : Bool :=
  (('0' ≤ c) && (c ≤ '9')) || (('a' ≤ c) && (c ≤ 'f')) || (('A' ≤ c) && (c ≤ 'F'))

/-- The wallet-address validation of `app.post("/did/create")`:
the regex test `/^0x[a-fA-F0-9]{40}$/.test(walletAddress)`. -/
def isValidEthAddress (s : String) : Bool :=
  jsStartsWith s "0x" && s.data.length = 42 && (s.data.drop 2).all isHexDigitJs

/-! ## Network configuration resolver (`getNetworkConfig`) -/

/-- The process-configuration inputs read by the configuration code
(`process.env` fields; `none` = variable unset). -/
structure Env where
  ethNetwork : Option String
  ethProviderUrl : Option String
  ethRegistryAddress : Option String
  ethRegistryAddressSepolia : Option String
deriving Repr, DecidableEq

/-- A named network preset / resolved configuration
(`{name, chainId, rpcUrl, registry}`). -/
structure NetworkPreset where
  name : String
  chainId : Nat
  rpcUrl : String
  registry : String
deriving Repr, DecidableEq

/-- `SKALE_TITAN_CONFIG` of `server-decentralized.js` (its `registry` field
reads `ETH_REGISTRY_ADDRESS_SEPOLIA` with a literal default). -/
def SKALE_TITAN_CONFIG (env : Env) : NetworkPreset :=
  { name := "skale-titan"
  , chainId := 1020352220
  , rpcUrl := "https://testnet.skalenodes.com/v1/aware-fake-trim-testnet"
  , registry := jsOr env.ethRegistryAddressSepolia "0x0979446EB2A4a373eaA702336aC3c390B0139Fc5" }

/-- The `sepolia` preset of the `NETWORK_CONFIGS` table of
`server-decentralized.js`. -/
def SEPOLIA_CONFIG : NetworkPreset :=
  { name := "sepolia"
  , chainId := 11155111
  , rpcUrl := "https://sepolia.infura.io/v3/189303beb46d46d8a0327f90f441168d"
  , registry := "0xc0660d54f4655dC3B045D69ced4308f1709FD35e" }

/-- The string-keyed members a JS object literal inherits from
`Object.prototype` (V8/Node): bracket access with one of these names
returns the inherited member — a truthy value — instead of `undefined`,
so the `|| SKALE_TITAN_CONFIG` default of `getNetworkConfig` is skipped
for them. -/
def objectPrototypeMembers : List String :=
  [ "constructor", "hasOwnProperty", "isPrototypeOf", "propertyIsEnumerable"
  , "toLocaleString", "toString", "valueOf", "__proto__"
  , "__defineGetter__", "__defineSetter__", "__lookupGetter__", "__lookupSetter__" ]

/-- Result of the JS bracket lookup `NETWORK_CONFIGS[name]`: an own
property (one of the three presets), a truthy member inherited from
`Object.prototype`, or `undefined`. -/
inductive JsLookup where
  | ownPreset (p : NetworkPreset)
  | protoMember (member : String)
  | undef
deriving Repr, DecidableEq

/-- The `NETWORK_CONFIGS[name]` lookup: own keys `"skale-titan"`,
`"skale"` (alias of the same preset) and `"sepolia"`, matched by exact
(hence case-sensitive) string equality; any other name falls through to
the prototype chain, where an `Object.prototype` member name yields that
(truthy) member and everything else yields `undefined`. -/
def NETWORK_CONFIGS (env : Env) (name : String) : JsLookup :=
  if name = "skale-titan" then JsLookup.ownPreset (SKALE_TITAN_CONFIG env)
  else if name = "skale" then JsLookup.ownPreset (SKALE_TITAN_CONFIG env)
  else if name = "sepolia" then JsLookup.ownPreset SEPOLIA_CONFIG
  else if name ∈ objectPrototypeMembers then JsLookup.protoMember name
  else JsLookup.undef

/-- Applying the per-field env overrides (`ETH_PROVIDER_URL`,
`ETH_REGISTRY_ADDRESS`) of `getNetworkConfig` to a chosen preset. -/
def resolvePreset (env : Env) (config : NetworkPreset) : NetworkPreset :=
  { name := config.name
  , rpcUrl := jsOr env.ethProviderUrl config.rpcUrl
  , registry := jsOr env.ethRegistryAddress config.registry
  , chainId := config.chainId }

/-- `getNetworkConfig` restricted to the preset/default cases: when the
looked-up name is an own key the preset is resolved, and any other
outcome of the lookup (including an inherited prototype member) is
treated as the default. This projection is what the embedded request
handlers consume — they only read the resolved `name` string, and their
claims hold for arbitrary name strings — while the full JS behavior,
junk configs for prototype-member names included, is
`getNetworkConfigJs` below; `getNetworkConfig_agrees` proves the two
coincide whenever `ETH_NETWORK || "skale-titan"` is not an
`Object.prototype` member name. -/
def getNetworkConfig (env : Env) : NetworkPreset :=
  let networkName := jsOr env.ethNetwork "skale-titan"
  let config := match NETWORK_CONFIGS env networkName with
    | JsLookup.ownPreset p => p
    | _ => SKALE_TITAN_CONFIG env
  resolvePreset env config

/-- The resolved configuration as the JS code actually produces it: each
field may be `undefined` (`none`), which happens exactly when the lookup
landed on an inherited prototype member (its `rpcUrl`, `registry` and
`chainId` properties are `undefined`, and its `name` is the member
function's name). -/
structure JsNetworkConfig where
  name : Option String
  rpcUrl : Option String
  registry : Option String
  chainId : Option Nat
deriving Repr, DecidableEq

/-- JS `a || b` where both operands may be `undefined`. -/
def jsOrOpt (a b : Option String) : Option String :=
  match a with
  | none => b
  | some s => if s = "" then b else some s

/-- The `.name` property of the member `Object.prototype[m]`: the
function's own name for the function-valued members, `"Object"` for
`constructor` (the `Object` constructor), and `undefined` for
`__proto__` (which reads as `Object.prototype` itself, an object with no
`name` property). -/
def protoMemberName (m : String) : Option String :=
  if m = "constructor" then some "Object"
  else if m = "__proto__" then none
  else some m

/-- A preset resolved with overrides, in the JS-faithful field types. -/
def resolvePresetJs (env : Env) (config : NetworkPreset) : JsNetworkConfig :=
  { name := some config.name
  , rpcUrl := some (jsOr env.ethProviderUrl config.rpcUrl)
  , registry := some (jsOr env.ethRegistryAddress config.registry)
  , chainId := some config.chainId }

/-- `getNetworkConfig` of `server-decentralized.js`, fully faithful to
the JS semantics: `ETH_NETWORK || "skale-titan"` is looked up with
prototype-chain inheritance; an own key resolves its preset with the env
overrides, an `undefined` lookup falls back (via `||`) to
`SKALE_TITAN_CONFIG`, but a truthy inherited `Object.prototype` member
skips the `||` default and produces a junk configuration: the member's
`name`, `undefined` `chainId`, and only the env overrides (if any) for
`rpcUrl`/`registry`. Pure derivation from `env`, hence deterministic. -/
def getNetworkConfigJs (env : Env) : JsNetworkConfig :=
  let networkName := jsOr env.ethNetwork "skale-titan"
  match NETWORK_CONFIGS env networkName with
  | JsLookup.ownPreset p => resolvePresetJs env p
  | JsLookup.protoMember m =>
      { name := protoMemberName m
      , rpcUrl := jsOrOpt env.ethProviderUrl none
      , registry := jsOrOpt env.ethRegistryAddress none
      , chainId := none }
  | JsLookup.undef => resolvePresetJs env (SKALE_TITAN_CONFIG env)

/-! ## Registry deployment prober (`checkRegistryDeployment`) -/

/-- Result shape `{isDeployed, registry}` of `checkRegistryDeployment`. -/
structure ProbeResult where
  isDeployed : Bool
  registry : String
deriving Repr, DecidableEq

/-- The chain-query oracle: `provider.getCode(address)`, which either
returns the bytecode string or throws (with a message). -/
def GetCode := String → Except String String

/-- JS `code && code !== "0x"`: bytecode counts as deployed when it is a
non-empty string different from the empty-account marker `"0x"`. -/
def codeDeployed (code : String) : Bool :=
  code ≠ "" && code ≠ "0x"

/-- The fixed alternate-registry candidate list (`knownRegistries`) probed
for the `skale-titan` network. -/
def knownRegistries : List String :=
  [ "0xdca7ef03e98e0dc2b855be647c39abe984fcf21b"
  , "0xd1d374dda6c5e1c0fd927de1c6c0e9cb7d7f12d3"
  , "0x0000000000000000000000000000000000000000" ]

/-- The candidate loop of `checkRegistryDeployment`: each candidate's
`getCode` is wrapped in its own try/catch, an error (or undeployed code)
moves on to the next candidate, the first deployed candidate is returned. -/
def probeCandidates (getCode : GetCode) : List String → Option String
  | [] => none
  | r :: rs =>
      match getCode r with
      | Except.ok c => if codeDeployed c then some r else probeCandidates getCode rs
      | Except.error _ => probeCandidates getCode rs

/-- `checkRegistryDeployment(networkConfig)`: query the bytecode at the
configured registry; when it is absent and the network is `skale-titan`,
walk `knownRegistries` and return the first deployed candidate; otherwise
keep the configured address. A throw of the primary `getCode` is caught by
the function's outer try/catch and yields `{isDeployed: false}` with the
configured address (the candidate loop is inside that same try, after the
primary query). -/
def checkRegistryDeployment (getCode : GetCode) (networkConfig : NetworkPreset) :
    ProbeResult :=
  match getCode networkConfig.registry with
  | Except.error _ => { isDeployed := false, registry := networkConfig.registry }
  | Except.ok code =>
      let isDeployed := codeDeployed code
      if isDeployed = false ∧ networkConfig.name = "skale-titan" then
        match probeCandidates getCode knownRegistries with
        | some r => { isDeployed := true, registry := r }
        | none => { isDeployed := isDeployed, registry := networkConfig.registry }
      else
        { isDeployed := isDeployed, registry := networkConfig.registry }

/-! ## Identity custody classifier (`app.post("/did/create")`,
`server-decentralized.js`) with its in-memory `DIDRegistry` store -/

/-- Identifier object returned by the external Veramo engine's
`didManagerCreate` (its key material lives in the engine's KMS; the
`keys` list is part of the returned identifier). `aliasName` embeds the
source's `alias` field (`alias` is a Lean command name). -/
structure EngineIdentifier where
  did : String
  provider : String
  aliasName : String
  keys : List String
  controllerKeyId : Option String
deriving Repr, DecidableEq

/-- The `options` object passed to `didManagerCreate`
(`{anchor, network}` for `did:ethr`, absent for `did:key`). -/
structure EngineCreateNetworkOptions where
  anchor : Bool
  network : String
deriving Repr, DecidableEq

/-- `createOptions` given to the external engine. -/
structure EngineCreateOptions where
  provider : String
  aliasName : String
  options : Option EngineCreateNetworkOptions
deriving Repr, DecidableEq

/-- The external signing engine's `didManagerCreate` operation: may
return an identifier or throw (with a message). -/
def Engine := EngineCreateOptions → Except String EngineIdentifier

/-- An entry of the in-memory `DIDRegistry` (`registerDID` stores
`{did, createdAt, ...metadata}`; the metadata differs per custody
variant, so per-variant fields are optional; `keys` is `[]` for
wallet-based entries, whose metadata carries no key material, and the
engine identifier's `keys` for engine-created entries). -/
structure RegEntry where
  did : String
  createdAt : String
  provider : Option String
  walletAddress : Option String
  network : Option String
  entryType : Option String
  aliasName : Option String
  note : Option String
  keys : List String
  controllerKeyId : Option String
deriving Repr, DecidableEq

/-- The `DIDRegistry.dids` JS `Map`, in insertion order. -/
def Store := List (String × RegEntry)

/-- JS `Map.get`. -/
def mapGet (k : String) : List (String × RegEntry) → Option RegEntry
  | [] => none
  | (k', v) :: rest => if k' = k then some v else mapGet k rest

/-- JS `Map.set`: replace in place if the key exists, else append. -/
def mapSet (k : String) (v : RegEntry) : List (String × RegEntry) →
    List (String × RegEntry)
  | [] => [(k, v)]
  | (k', v') :: rest =>
      if k' = k then (k, v) :: rest else (k', v') :: mapSet k v rest

/-- The `identifier` object echoed in the wallet-based responses
(`{did, provider, walletAddress, network}`, rebuilt from the request). -/
structure WalletIdentifier where
  did : String
  provider : String
  walletAddress : String
  network : String
deriving Repr, DecidableEq

/-- Outcome of one `/did/create` request, by response site:
`walletExisting`/`walletCreated` are the two 200 responses of the
wallet-based branch, `invalidAddress` the 400 address-validation error,
`generatedKey`/`selfIssued` the 200 responses of the engine-backed
branches, and `creationError` the 500 sent by the handler's catch block. -/
inductive CreateResponse where
  | walletExisting (identifier : WalletIdentifier)
  | walletCreated (identifier : WalletIdentifier)
  | invalidAddress
  | generatedKey (identifier : EngineIdentifier)
  | selfIssued (identifier : EngineIdentifier)
  | creationError (message : String)
deriving Repr, DecidableEq

/-- Result of running the handler: the HTTP response, the `DIDRegistry`
state after the call, and how many calls were made to the external
engine's `didManagerCreate`. -/
structure CreateOutput where
  response : CreateResponse
  store : List (String × RegEntry)
  engineCalls : Nat
deriving Repr, DecidableEq

/-- A `/did/create` request body
(`{provider = "did:key", alias, walletAddress, network}`; absent fields
are `none`). -/
structure CreateRequest where
  provider : Option String
  aliasName : Option String
  walletAddress : Option String
  network : Option String
deriving Repr, DecidableEq

/-- The registry metadata written by the wallet-based branch. -/
def walletEntry (nowIso : String) (didId w targetNetwork : String)
    (aliasName : Option String) : RegEntry :=
  { did := didId
  , createdAt := nowIso
  , provider := some "did:ethr"
  , walletAddress := some w
  , network := some targetNetwork
  , entryType := some "wallet-based"
  , aliasName := some (jsOr aliasName ("wallet-" ++ List.asString (w.data.take 10)))
  , note := none
  , keys := []
  , controllerKeyId := none }

/-- The registry metadata written by the generated-key branch
(`{...identifier, type: "generated-key", note}`). -/
def generatedEntry (nowIso : String) (id : EngineIdentifier) : RegEntry :=
  { did := id.did
  , createdAt := nowIso
  , provider := some id.provider
  , walletAddress := none
  , network := none
  , entryType := some "generated-key"
  , aliasName := some id.aliasName
  , note := some "This is a generated key. Veramo stores the private key."
  , keys := id.keys
  , controllerKeyId := id.controllerKeyId }

/-- The registry metadata written by the self-issued branch
(`{...identifier, type: "self-issued", note}`). -/
def selfIssuedEntry (nowIso : String) (id : EngineIdentifier) : RegEntry :=
  { did := id.did
  , createdAt := nowIso
  , provider := some id.provider
  , walletAddress := none
  , network := none
  , entryType := some "self-issued"
  , aliasName := some id.aliasName
  , note := some "Self-issued DID, no blockchain required"
  , keys := id.keys
  , controllerKeyId := id.controllerKeyId }

/-- The `app.post("/did/create")` handler of `server-decentralized.js`.

Branching mirrors the source: the wallet-based branch fires for
`provider === "did:ethr" && walletAddress` (JS truthiness), validates the
address shape, derives `did:ethr:<network || config.name>:<address>`,
returns the already-registered entry's identity without writing or
calling the engine when the key is present, and otherwise registers; the
generated-key and self-issued branches call `didManagerCreate` and
register the returned identifier; the final `else` builds a 400 response
whose object literal reads the undeclared variable `error`
(`error: error.message`), which in this ES module throws
`ReferenceError: error is not defined` before the 400 is sent and is
caught by the handler's catch, producing a 500 with that message. An
engine throw is likewise caught and produces a 500 with the engine's
message. -/
def didCreate (engine : Engine) (env : Env) (nowIso : String) (nowMs : Nat)
    (store : List (String × RegEntry)) (req : CreateRequest) : CreateOutput :=
  let provider := req.provider.getD "did:key"
  if provider = "did:ethr" ∧ truthyOpt req.walletAddress = true then
    let w := req.walletAddress.getD ""
    if isValidEthAddress w = false then
      { response := CreateResponse.invalidAddress, store := store, engineCalls := 0 }
    else
      let networkConfig := getNetworkConfig env
      let targetNetwork := jsOr req.network networkConfig.name
      let didIdentifier := "did:ethr:" ++ targetNetwork ++ ":" ++ w
      match mapGet didIdentifier store with
      | some _ =>
          { response := CreateResponse.walletExisting
              { did := didIdentifier, provider := "did:ethr"
              , walletAddress := w, network := targetNetwork }
          , store := store
          , engineCalls := 0 }
      | none =>
          { response := CreateResponse.walletCreated
              { did := didIdentifier, provider := "did:ethr"
              , walletAddress := w, network := targetNetwork }
          , store := mapSet didIdentifier
              (walletEntry nowIso didIdentifier w targetNetwork req.aliasName) store
          , engineCalls := 0 }
  else if provider = "did:ethr" then
    let networkConfig := getNetworkConfig env
    let createOptions : EngineCreateOptions :=
      { provider := "did:ethr"
      , aliasName := jsOr req.aliasName ("did-generated-" ++ toString nowMs)
      , options := some { anchor := false, network := networkConfig.name } }
    match engine createOptions with
    | Except.error m =>
        { response := CreateResponse.creationError m, store := store, engineCalls := 1 }
    | Except.ok id =>
        { response := CreateResponse.generatedKey id
        , store := mapSet id.did (generatedEntry nowIso id) store
        , engineCalls := 1 }
  else if provider = "did:key" then
    let createOptions : EngineCreateOptions :=
      { provider := "did:key"
      , aliasName := jsOr req.aliasName ("key-" ++ toString nowMs)
      , options := none }
    match engine createOptions with
    | Except.error m =>
        { response := CreateResponse.creationError m, store := store, engineCalls := 1 }
    | Except.ok id =>
        { response := CreateResponse.selfIssued id
        , store := mapSet id.did (selfIssuedEntry nowIso id) store
        , engineCalls := 1 }
  else
    { response := CreateResponse.creationError "error is not defined"
    , store := store, engineCalls := 0 }

/-- Modelled from the spec: `signingCapable` is not a literal field of the
code's registry entries; it names the invariant that the server can sign
for a DID exactly when it holds key material for it, which in the code
corresponds to the stored record carrying engine-managed keys
(wallet-based registrations store none; engine-created registrations
store the generated identifier's keys). -/
def signingCapable (e : RegEntry) : Bool :=
  !e.keys.isEmpty

/-- The spec's custody invariant for a stored record: signing-capable
exactly when the custody model is ServiceManaged (`"generated-key"`) or
SelfIssued (`"self-issued"`). -/
def custodyInvariant (e : RegEntry) : Prop :=
  signingCapable e = true ↔
    (e.entryType = some "generated-key" ∨ e.entryType = some "self-issued")

/-! ## DID resolution fallback (`app.get("/did/:did/resolve")`,
`server-decentralized.js`) -/

/-- A verification method of a DID document. -/
structure VerificationMethod where
  id : String
  methodType : String
  controller : String
  blockchainAccountId : String
deriving Repr, DecidableEq

/-- The DID-document shape used by the fallback synthesis. -/
structure DIDDocument where
  context : List String
  id : String
  verificationMethod : List VerificationMethod
  authentication : List String
  assertionMethod : List String
deriving Repr, DecidableEq

/-- `didDocumentMetadata` of a resolution result. -/
structure DIDDocumentMetadata where
  fallback : Bool
  message : Option String
deriving Repr, DecidableEq

/-- A resolution result (`{didDocumentMetadata, didResolutionMetadata,
didDocument}`; `didResolutionMetadata` reduced to its `contentType`). -/
structure Resolution where
  didDocumentMetadata : DIDDocumentMetadata
  contentType : Option String
  didDocument : DIDDocument
deriving Repr, DecidableEq

/-- The external resolution capability `agent.resolveDid({didUrl})`:
returns a resolution or throws with a message. -/
def ResolverOracle := String → Except String Resolution

/-- Outcome of `/did/:did/resolve`, by response site: a 200 with
`method: "blockchain-resolved"`, a 200 with `method: "fallback"` carrying
the synthesized document, the 400 `Network not configured` rejection, or
the 500 sent by the catch block with the (possibly reclassified) error
message. -/
inductive ResolveResponse where
  | resolved (resolution : Resolution)
  | fallbackResolved (resolution : Resolution)
  | networkNotConfigured (network : String) (available : String)
  | resolutionError (message : String) (did : String)
deriving Repr, DecidableEq

/-- The fallback DID document synthesized for SKALE networks when
standard resolution throws: one `#controller` verification method whose
controller is the DID itself, referenced by both `authentication` and
`assertionMethod`, with the embedded address in `blockchainAccountId`. -/
def fallbackDidDocument (did address : String) : DIDDocument :=
  { context := ["https://www.w3.org/ns/did/v1"]
  , id := did
  , verificationMethod :=
      [ { id := did ++ "#controller"
        , methodType := "EcdsaSecp256k1RecoveryMethod2020"
        , controller := did
        , blockchainAccountId := "eip155:1020352220:" ++ address } ]
  , authentication := [did ++ "#controller"]
  , assertionMethod := [did ++ "#controller"] }

/-- The full fallback resolution object returned in the fallback 200. -/
def fallbackResolution (did address : String) : Resolution :=
  { didDocumentMetadata :=
      { fallback := true
      , message := some "Registry call failed, using fallback DID document" }
  , contentType := some "application/did+ld+json"
  , didDocument := fallbackDidDocument did address }

/-- The error-message reclassification of the resolve handler's catch
block: messages containing `CALL_EXCEPTION` or `missing revert data` are
wrapped in a registry-contract hint that embeds the original message;
other messages pass through verbatim. -/
def classifyResolutionError (msg : String) : String :=
  if jsIncludes msg "CALL_EXCEPTION" || jsIncludes msg "missing revert data" then
    "Registry contract error: " ++ msg ++
      ". For decentralized DIDs, use did:ethr with a wallet address or did:key for self-issued DIDs."
  else msg

/-- The final `agent.resolveDid` call of the handler, with a throw routed
through the catch block's classification. -/
def finalResolve (resolver : ResolverOracle) (did : String) : ResolveResponse :=
  match resolver did with
  | Except.ok r => ResolveResponse.resolved r
  | Except.error msg =>
      ResolveResponse.resolutionError (classifyResolutionError msg) did

/-- The `app.get("/did/:did/resolve")` handler of
`server-decentralized.js`. For `did:ethr:` DIDs with at least four
colon-separated parts: SKALE networks (`skale-titan`/`skale`) try standard
resolution inside their own try/catch and fall back to the synthesized
document on a throw; any other network name is rejected with the 400
`Network not configured` response unless it equals the configured
network's name, in which case resolution proceeds normally. All other DIDs
go straight to standard resolution, whose throw reaches the outer catch. -/
def resolveDid (resolver : ResolverOracle) (env : Env) (did : String) :
    ResolveResponse :=
  if jsStartsWith did "did:ethr:" then
    let parts := jsSplit ':' did
    if parts.length ≥ 4 then
      let network := parts.getD 2 ""
      let address := parts.getD 3 ""
      if network = "skale-titan" ∨ network = "skale" then
        match resolver did with
        | Except.ok r => ResolveResponse.resolved r
        | Except.error _ =>
            ResolveResponse.fallbackResolved (fallbackResolution did address)
      else
        let networkConfig := getNetworkConfig env
        if network ≠ networkConfig.name ∧ network ≠ "skale" ∧ network ≠ "skale-titan" then
          ResolveResponse.networkNotConfigured network networkConfig.name
        else
          finalResolve resolver did
    else
      finalResolve resolver did
  else
    finalResolve resolver did

/-- Whether a response is the synthesized-fallback 200. -/
def isFallbackResponse : ResolveResponse → Bool
  | ResolveResponse.fallbackResolved _ => true
  | _ => false

/-- The DID shapes for which the handler can synthesize a fallback
document: `did:ethr:` prefix, at least four `:`-parts, and a SKALE
network component. -/
def fallbackShape (did : String) : Prop :=
  jsStartsWith did "did:ethr:" = true ∧
    (jsSplit ':' did).length ≥ 4 ∧
    ((jsSplit ':' did).getD 2 "" = "skale-titan" ∨ (jsSplit ':' did).getD 2 "" = "skale")

instance (did : String) : Decidable (fallbackShape did) := by
  unfold fallbackShape; infer_instance

/-! ## SKALE-compatible credential verification
(`app.post("/credential/verify-skale")`, `server.js`) -/

/-- A JSON/JavaScript value as carried by the request body. -/
inductive JSValue where
  | nullV
  | boolV (b : Bool)
  | numV (n : Int)
  | strV (s : String)
  | arrV (xs : List JSValue)
  | objV (fields : List (String × JSValue))

/-- JS truthiness of a value. -/
def truthyJS : JSValue → Bool
  | JSValue.nullV => false
  | JSValue.boolV b => b
  | JSValue.numV n => n ≠ 0
  | JSValue.strV s => s ≠ ""
  | JSValue.arrV _ => true
  | JSValue.objV _ => true

/-- First-match field lookup in an object's field list. -/
def lookupField : List (String × JSValue) → String → Option JSValue
  | [], _ => none
  | (k, v) :: rest, key => if k = key then some v else lookupField rest key

/-- JS property access `v.k` on a non-null value: a field of an object,
`undefined` (here `none`) otherwise. -/
def jsField : JSValue → String → Option JSValue
  | JSValue.objV fields, k => lookupField fields k
  | _, _ => none

/-- Truthiness of a possibly-`undefined` property. -/
def truthyProp : Option JSValue → Bool
  | none => false
  | some v => truthyJS v

/-- JS `x > t` where `x` is a possibly-`undefined` property and `t` a
number: false unless `x` is a number greater than `t` (comparisons
involving `undefined` are `NaN` comparisons, hence false; `exp` values
are numeric timestamps, embedded as integers). -/
def jsNumGt (x : Option JSValue) (t : Int) : Bool :=
  match x with
  | some (JSValue.numV n) => n > t
  | _ => false

/-- Result object of the external `agent.verifyCredential` (passed through
opaquely by the standard path; reduced to its `verified` flag). -/
structure VerificationOutcome where
  verified : Bool
deriving Repr, DecidableEq

/-- Outcome of one `/credential/verify-skale` request, by response site:
the 400 missing-field rejection, the standard-path 200, the two fallback
200s (`method: "fallback_jwt"` with the computed `verified` flag, and
`method: "fallback_object"` whose `verified` flag the code sets to the
literal `true`), and the 500 sent when both paths failed. -/
inductive SkaleVerifyResponse where
  | missingCredential
  | standard (result : VerificationOutcome)
  | fallbackJwt (verified : Bool) (payload : JSValue)
  | fallbackObject (verified : Bool) (payload : JSValue)
  | bothFailed (registryError fallbackError : String)

/-- The JWT-string fallback branch: fires only for a string credential
containing `.` that splits into exactly three parts; decodes the payload
(a throw of `Buffer.from`/`JSON.parse`, or a property access on a null
payload, propagates to the fallback catch) and performs the basic
`vc`/`iss`/`sub`/`iat`/`exp` truthiness-and-expiry checks. Returns `none`
when the branch does not produce a response, so control falls through. -/
def jwtFallbackBranch (decodePayload : String → Except String JSValue)
    (nowSec : Int) (credential : JSValue) :
    Option (Except String SkaleVerifyResponse) :=
  match credential with
  | JSValue.strV s =>
      if jsIncludes s "." = true then
        let parts := jsSplit '.' s
        if parts.length = 3 then
          match decodePayload (parts.getD 1 "") with
          | Except.error e => some (Except.error e)
          | Except.ok payload =>
              match payload with
              | JSValue.nullV =>
                  some (Except.error "Cannot read properties of null (reading 'vc')")
              | _ =>
                  let isValid :=
                    truthyProp (jsField payload "vc") &&
                    truthyProp (jsField payload "iss") &&
                    truthyProp (jsField payload "sub") &&
                    truthyProp (jsField payload "iat") &&
                    truthyProp (jsField payload "exp") &&
                    jsNumGt (jsField payload "exp") nowSec
                  some (Except.ok (SkaleVerifyResponse.fallbackJwt isValid payload))
        else none
      else none
  | _ => none

/-- The object fallback branch reached when the JWT branch fell through:
`typeof credential === "object" && credential.credentialSubject` returns
the `verified: true` fallback-object response; a null credential throws a
TypeError on the property access; anything else reaches the
`throw new Error("Unable to verify credential with fallback methods")`. -/
def objectFallbackBranch (credential : JSValue) :
    Except String SkaleVerifyResponse :=
  match credential with
  | JSValue.nullV =>
      Except.error "Cannot read properties of null (reading 'credentialSubject')"
  | JSValue.objV fields =>
      if truthyProp (lookupField fields "credentialSubject") = true then
        Except.ok (SkaleVerifyResponse.fallbackObject true credential)
      else
        Except.error "Unable to verify credential with fallback methods"
  | _ => Except.error "Unable to verify credential with fallback methods"

/-- The whole inner fallback try-block of `verify-skale`. -/
def fallbackVerify (decodePayload : String → Except String JSValue)
    (nowSec : Int) (credential : JSValue) : Except String SkaleVerifyResponse :=
  match jwtFallbackBranch decodePayload nowSec credential with
  | some r => r
  | none => objectFallbackBranch credential

/-- The `app.post("/credential/verify-skale")` handler of `server.js`:
reject a falsy credential with 400, try the standard
`agent.verifyCredential`, and on a throw run the fallback block; a throw
inside the fallback block produces the 500 carrying both messages. -/
def verifySkale (verify : JSValue → Except String VerificationOutcome)
    (decodePayload : String → Except String JSValue)
    (nowSec : Int) (credential : JSValue) : SkaleVerifyResponse :=
  if truthyJS credential = false then SkaleVerifyResponse.missingCredential
  else
    match verify credential with
    | Except.ok result => SkaleVerifyResponse.standard result
    | Except.error registryError =>
        match fallbackVerify decodePayload nowSec credential with
        | Except.ok resp => resp
        | Except.error fallbackError =>
            SkaleVerifyResponse.bothFailed registryError fallbackError

/-! ## Helper lemmas -/

/-- `Map.get` after `Map.set` of the same key. -/
theorem mapGet_mapSet_self (k : String) (v : RegEntry) :
    ∀ l : List (String × RegEntry), mapGet k (mapSet k v l) = some v := by
  intro l
  induction l with
  | nil => simp [mapSet, mapGet]
  | cons hd tl ih =>
      obtain ⟨k', v'⟩ := hd
      by_cases h : k' = k
      · simp [mapSet, mapGet, h]
      · simp [mapSet, mapGet, h, ih]

/-- Every binding of `mapSet k v l` is the new binding or one of `l`. -/
theorem mem_mapSet (k : String) (v : RegEntry) :
    ∀ (l : List (String × RegEntry)) (k' : String) (e : RegEntry),
      (k', e) ∈ mapSet k v l → (k' = k ∧ e = v) ∨ (k', e) ∈ l := by
  intro l
  induction l with
  | nil => intro k' e h; simp [mapSet] at h; exact Or.inl h
  | cons hd tl ih =>
      intro k' e h
      obtain ⟨k₀, v₀⟩ := hd
      by_cases hk : k₀ = k
      · simp [mapSet, hk] at h
        rcases h with h | h
        · exact Or.inl h
        · exact Or.inr (List.mem_cons_of_mem _ h)
      · simp [mapSet, hk] at h
        rcases h with h | h
        · exact Or.inr (by simp [h])
        · rcases ih k' e h with h' | h'
          · exact Or.inl h'
          · exact Or.inr (List.mem_cons_of_mem _ h')

/-- If no candidate in `l` both answers and shows deployed bytecode, the
candidate loop finds nothing. -/
theorem probeCandidates_none (getCode : GetCode) :
    ∀ l : List String,
      (∀ r ∈ l, ∀ c, getCode r = Except.ok c → codeDeployed c = false) →
      probeCandidates getCode l = none := by
  intro l
  induction l with
  | nil => intro _; rfl
  | cons r rs ih =>
      intro h
      unfold probeCandidates
      cases hr : getCode r with
      | ok c =>
          have := h r (by simp) c hr
          simp [this]
          exact ih fun r' hr' c' hc' => h r' (by simp [hr']) c' hc'
      | error e =>
          exact ih fun r' hr' c' hc' => h r' (by simp [hr']) c' hc'

/-! ## Claims -/

/-- A lookup that lands on an inherited member implies the name is one
of the `Object.prototype` member names. -/
theorem NETWORK_CONFIGS_protoMember (env : Env) (s m : String)
    (h : NETWORK_CONFIGS env s = JsLookup.protoMember m) :
    s ∈ objectPrototypeMembers := by
  unfold NETWORK_CONFIGS at h
  by_cases h1 : s = "skale-titan"
  · simp [h1] at h
  by_cases h2 : s = "skale"
  · simp [h1, h2] at h
  by_cases h3 : s = "sepolia"
  · simp [h1, h2, h3] at h
  by_cases h4 : s ∈ objectPrototypeMembers
  · exact h4
  · simp [h1, h2, h3, h4] at h

/-- Off the prototype-member corner, the JS-faithful resolver and the
preset-valued projection `getNetworkConfig` used by the embedded
handlers coincide (every field defined, equal component-wise). -/
theorem getNetworkConfig_agrees (env : Env)
    (h : jsOr env.ethNetwork "skale-titan" ∉ objectPrototypeMembers) :
    getNetworkConfigJs env =
      { name := some (getNetworkConfig env).name
      , rpcUrl := some (getNetworkConfig env).rpcUrl
      , registry := some (getNetworkConfig env).registry
      , chainId := some (getNetworkConfig env).chainId } := by
  unfold getNetworkConfigJs getNetworkConfig
  dsimp only
  cases hN : NETWORK_CONFIGS env (jsOr env.ethNetwork "skale-titan") with
  | ownPreset p => rfl
  | protoMember m => exact absurd (NETWORK_CONFIGS_protoMember env _ m hN) h
  | undef => rfl

/-- C8 counterexample: `ETH_NETWORK = "toString"` is not a key of the
preset table, yet the resolver does not fall back to the default preset:
the bracket lookup finds the truthy inherited `Object.prototype.toString`
member, the `||` default is skipped, and the resolved configuration is
junk (`name: "toString"`, `undefined` rpcUrl/registry/chainId) — not the
SKALE Titan preset the claim requires. -/
theorem claim_C8_counterexample :
    (¬ ("toString" = "skale-titan" ∨ "toString" = "skale" ∨
        "toString" = "sepolia")) ∧
    getNetworkConfigJs ⟨some "toString", none, none, none⟩ =
      { name := some "toString", rpcUrl := none, registry := none
      , chainId := none } ∧
    getNetworkConfigJs ⟨some "toString", none, none, none⟩ ≠
      resolvePresetJs ⟨some "toString", none, none, none⟩
        (SKALE_TITAN_CONFIG ⟨some "toString", none, none, none⟩) := by
  decide

/-- C8 (amended): a requested network name that is neither a key of the
fixed preset table nor the name of a member inherited from
`Object.prototype` resolves to the designated default preset
(`skale-titan`); a name that is a key resolves to that preset with the
per-field overrides applied; a prototype-member name yields the junk
configuration built from the inherited member (its `name` property,
`undefined` `chainId`, and only the env overrides for
`rpcUrl`/`registry`) instead of the default. Key matching is by exact
string equality, hence case-sensitive, and the own keys are exactly
`skale-titan`, `skale`, `sepolia` (last conjunct). `getNetworkConfigJs`
is a pure function of `env`, so the derivation is deterministic by
construction. -/
theorem claim_C8_lookup_behavior (env : Env) (name : String)
    (hn : env.ethNetwork = some name) (hne : name ≠ "") :
    (NETWORK_CONFIGS env name = JsLookup.undef →
      getNetworkConfigJs env = resolvePresetJs env (SKALE_TITAN_CONFIG env)) ∧
    (∀ p, NETWORK_CONFIGS env name = JsLookup.ownPreset p →
      getNetworkConfigJs env = resolvePresetJs env p) ∧
    (∀ m, NETWORK_CONFIGS env name = JsLookup.protoMember m →
      getNetworkConfigJs env =
        { name := protoMemberName m
        , rpcUrl := jsOrOpt env.ethProviderUrl none
        , registry := jsOrOpt env.ethRegistryAddress none
        , chainId := none }) ∧
    (∀ s p, NETWORK_CONFIGS env s = JsLookup.ownPreset p →
      s = "skale-titan" ∨ s = "skale" ∨ s = "sepolia") := by
  refine ⟨?_, ?_, ?_, ?_⟩
  · intro h
    unfold getNetworkConfigJs
    rw [hn]
    simp only [jsOr, hne, if_false]
    rw [h]
  · intro p h
    unfold getNetworkConfigJs
    rw [hn]
    simp only [jsOr, hne, if_false]
    rw [h]
  · intro m h
    unfold getNetworkConfigJs
    rw [hn]
    simp only [jsOr, hne, if_false]
    rw [h]
  · intro s p h
    unfold NETWORK_CONFIGS at h
    by_cases h1 : s = "skale-titan"
    · exact Or.inl h1
    by_cases h2 : s = "skale"
    · exact Or.inr (Or.inl h2)
    by_cases h3 : s = "sepolia"
    · exact Or.inr (Or.inr h3)
    by_cases h4 : s ∈ objectPrototypeMembers
    · simp [h1, h2, h3, h4] at h
    · simp [h1, h2, h3, h4] at h

/-- Witness for the amended C8 at concrete inputs: the unknown
non-prototype name `"fuji"` resolves to the default SKALE Titan preset,
the key `"sepolia"` resolves to the sepolia preset, and the
prototype-member name `"valueOf"` resolves to the junk configuration. -/
theorem claim_C8_witness :
    getNetworkConfigJs ⟨some "fuji", none, none, none⟩ =
      resolvePresetJs ⟨some "fuji", none, none, none⟩
        (SKALE_TITAN_CONFIG ⟨some "fuji", none, none, none⟩) ∧
    getNetworkConfigJs ⟨some "sepolia", none, none, none⟩ =
      resolvePresetJs ⟨some "sepolia", none, none, none⟩ SEPOLIA_CONFIG ∧
    getNetworkConfigJs ⟨some "valueOf", none, none, none⟩ =
      { name := some "valueOf", rpcUrl := none, registry := none
      , chainId := none } := by
  refine ⟨?_, ?_, ?_⟩
  · exact (claim_C8_lookup_behavior ⟨some "fuji", none, none, none⟩
      "fuji" rfl (by decide)).1 (by decide)
  · exact (claim_C8_lookup_behavior ⟨some "sepolia", none, none, none⟩
      "sepolia" rfl (by decide)).2.1 SEPOLIA_CONFIG (by decide)
  · exact (claim_C8_lookup_behavior ⟨some "valueOf", none, none, none⟩
      "valueOf" rfl (by decide)).2.2.1 "valueOf" (by decide)

/-- An `Env` with every configuration variable unset. -/
def env0 : Env := ⟨none, none, none, none⟩

/-- The primary probe answered and its bytecode is not deployed (the
case in which the code reaches the candidate loop). -/
def primaryNotDeployed (getCode : GetCode) (addr : String) : Bool :=
  match getCode addr with
  | Except.ok c => !codeDeployed c
  | Except.error _ => false

/-- A probe at `addr` does not find deployed bytecode: it either answers
with undeployed code or throws. -/
def probeNotDeployed (getCode : GetCode) (addr : String) : Bool :=
  match getCode addr with
  | Except.ok c => !codeDeployed c
  | Except.error _ => true

/-- A probe at `addr` answers with deployed bytecode. -/
def probeDeployedAt (getCode : GetCode) (addr : String) : Bool :=
  match getCode addr with
  | Except.ok c => codeDeployed c
  | Except.error _ => false

/-- Eliminator for `probeNotDeployed`. -/
theorem probeNotDeployed_elim {getCode : GetCode} {addr : String}
    (h : probeNotDeployed getCode addr = true) :
    ∀ c, getCode addr = Except.ok c → codeDeployed c = false := by
  intro c hc
  unfold probeNotDeployed at h
  rw [hc] at h
  simpa using h

/-- C4 counterexample chain state: the primary SKALE registry address has
no bytecode, while both the first and the second candidate of
`knownRegistries` are deployed. -/
def c4ChainState : GetCode := fun a =>
  if a = "0xdca7ef03e98e0dc2b855be647c39abe984fcf21b" then Except.ok "0x6001600101"
  else if a = "0xd1d374dda6c5e1c0fd927de1c6c0e9cb7d7f12d3" then Except.ok "0x6002600202"
  else Except.ok "0x"

/-- C4 counterexample: in a chain state where the primary registry is
undeployed and the second candidate is deployed, the claim requires the
probe to return the second candidate, but because the first candidate is
also deployed the loop short-circuits on it: the effective registry is
the first candidate, not the second. -/
theorem claim_C4_counterexample :
    c4ChainState (SKALE_TITAN_CONFIG env0).registry = Except.ok "0x" ∧
    codeDeployed "0x" = false ∧
    c4ChainState "0xd1d374dda6c5e1c0fd927de1c6c0e9cb7d7f12d3" =
      Except.ok "0x6002600202" ∧
    codeDeployed "0x6002600202" = true ∧
    checkRegistryDeployment c4ChainState (SKALE_TITAN_CONFIG env0) =
      { isDeployed := true, registry := "0xdca7ef03e98e0dc2b855be647c39abe984fcf21b" } ∧
    checkRegistryDeployment c4ChainState (SKALE_TITAN_CONFIG env0) ≠
      { isDeployed := true, registry := "0xd1d374dda6c5e1c0fd927de1c6c0e9cb7d7f12d3" } := by
  decide

/-- C4 (amended): on the `skale-titan` network (the only one with the
alternate-registry list), when the primary registry is undeployed, the
first candidate does not probe as deployed, and the second candidate is
deployed, `checkRegistryDeployment` returns the second candidate with
`isDeployed: true`; and for any configuration in which the primary and
every candidate are undeployed, it returns `isDeployed: false` with the
original configured registry address. -/
theorem claim_C4_theorem (getCode : GetCode) (networkConfig : NetworkPreset) :
    (networkConfig.name = "skale-titan" →
     primaryNotDeployed getCode networkConfig.registry = true →
     probeNotDeployed getCode "0xdca7ef03e98e0dc2b855be647c39abe984fcf21b" = true →
     probeDeployedAt getCode "0xd1d374dda6c5e1c0fd927de1c6c0e9cb7d7f12d3" = true →
     checkRegistryDeployment getCode networkConfig =
       { isDeployed := true
       , registry := "0xd1d374dda6c5e1c0fd927de1c6c0e9cb7d7f12d3" }) ∧
    (primaryNotDeployed getCode networkConfig.registry = true →
     (∀ r ∈ knownRegistries, probeNotDeployed getCode r = true) →
     checkRegistryDeployment getCode networkConfig =
       { isDeployed := false, registry := networkConfig.registry }) := by
  constructor
  · intro hname hprim h0 h1
    unfold primaryNotDeployed at hprim
    unfold probeDeployedAt at h1
    cases hp : getCode networkConfig.registry with
    | error e => rw [hp] at hprim; simp at hprim
    | ok c =>
        rw [hp] at hprim
        have hc : codeDeployed c = false := by simpa using hprim
        unfold checkRegistryDeployment
        rw [hp]
        simp only [hc, hname, and_self, if_true]
        unfold knownRegistries
        cases hc0 : getCode "0xdca7ef03e98e0dc2b855be647c39abe984fcf21b" with
        | ok c0 =>
            have h0' := probeNotDeployed_elim h0 c0 hc0
            cases hc1 : getCode "0xd1d374dda6c5e1c0fd927de1c6c0e9cb7d7f12d3" with
            | ok c1 =>
                rw [hc1] at h1
                have h1' : codeDeployed c1 = true := by simpa using h1
                simp [probeCandidates, hc0, hc1, h0', h1']
            | error e1 => rw [hc1] at h1; simp at h1
        | error e0 =>
            cases hc1 : getCode "0xd1d374dda6c5e1c0fd927de1c6c0e9cb7d7f12d3" with
            | ok c1 =>
                rw [hc1] at h1
                have h1' : codeDeployed c1 = true := by simpa using h1
                simp [probeCandidates, hc0, hc1, h1']
            | error e1 => rw [hc1] at h1; simp at h1
  · intro hprim hall
    unfold primaryNotDeployed at hprim
    cases hp : getCode networkConfig.registry with
    | error e => rw [hp] at hprim; simp at hprim
    | ok c =>
        rw [hp] at hprim
        have hc : codeDeployed c = false := by simpa using hprim
        unfold checkRegistryDeployment
        rw [hp]
        by_cases hname : networkConfig.name = "skale-titan"
        · simp only [hc, hname, and_self, if_true]
          rw [probeCandidates_none getCode knownRegistries
            (fun r hr => probeNotDeployed_elim (hall r hr))]
        · simp [hc, hname]

/-- C4 witness chain state for the amended first part: primary and first
candidate undeployed, second candidate deployed. -/
def c4WitnessChain : GetCode := fun a =>
  if a = "0xd1d374dda6c5e1c0fd927de1c6c0e9cb7d7f12d3" then Except.ok "0x6002600202"
  else Except.ok "0x"

/-- C4 witness chain state for the amended second part: nothing deployed
anywhere. -/
def c4AllUndeployed : GetCode := fun _ => Except.ok "0x"

/-- Witness for the amended C4 at concrete chain states. -/
theorem claim_C4_witness :
    checkRegistryDeployment c4WitnessChain (SKALE_TITAN_CONFIG env0) =
      { isDeployed := true
      , registry := "0xd1d374dda6c5e1c0fd927de1c6c0e9cb7d7f12d3" } ∧
    checkRegistryDeployment c4AllUndeployed (SKALE_TITAN_CONFIG env0) =
      { isDeployed := false, registry := (SKALE_TITAN_CONFIG env0).registry } := by
  constructor
  · exact (claim_C4_theorem c4WitnessChain (SKALE_TITAN_CONFIG env0)).1
      (by decide) (by decide) (by decide) (by decide)
  · exact (claim_C4_theorem c4AllUndeployed (SKALE_TITAN_CONFIG env0)).2
      (by decide) (by decide)

/-- C5 counterexample chain state: the chain query at the primary
registry throws, while the first candidate answers with deployed
bytecode. -/
def c5ChainState : GetCode := fun a =>
  if a = "0x0979446EB2A4a373eaA702336aC3c390B0139Fc5" then
    Except.error "network unreachable"
  else if a = "0xdca7ef03e98e0dc2b855be647c39abe984fcf21b" then
    Except.ok "0x6001600101"
  else Except.ok "0x"

/-- C5 counterexample: the probe of the primary address throws while the
first candidate probe succeeds and shows deployed bytecode — so not every
probe throws — yet the overall result still degrades to
`{isDeployed: false}` with the original address: the outer catch aborts
probing before the candidate loop runs, contradicting "probing continues
through the remaining candidates" and "only when every probe throws does
the overall result degrade". -/
theorem claim_C5_counterexample :
    c5ChainState (SKALE_TITAN_CONFIG env0).registry =
      Except.error "network unreachable" ∧
    c5ChainState "0xdca7ef03e98e0dc2b855be647c39abe984fcf21b" =
      Except.ok "0x6001600101" ∧
    codeDeployed "0x6001600101" = true ∧
    checkRegistryDeployment c5ChainState (SKALE_TITAN_CONFIG env0) =
      { isDeployed := false, registry := (SKALE_TITAN_CONFIG env0).registry } ∧
    checkRegistryDeployment c5ChainState (SKALE_TITAN_CONFIG env0) ≠
      { isDeployed := true
      , registry := "0xdca7ef03e98e0dc2b855be647c39abe984fcf21b" } := by
  decide

/-- C5 (amended): a chain-query error while checking a candidate of the
alternate list is treated as not-deployed for that candidate and probing
continues through the remaining candidates (first part: first candidate
throws, second candidate deployed, second candidate returned); but a
chain-query error on the primary registry probe is fatal to probing: the
outer catch returns `{isDeployed: false}` with the original configured
address without consulting any candidate (second part). -/
theorem claim_C5_theorem (getCode : GetCode) (networkConfig : NetworkPreset) :
    (networkConfig.name = "skale-titan" →
     primaryNotDeployed getCode networkConfig.registry = true →
     (∃ e, getCode "0xdca7ef03e98e0dc2b855be647c39abe984fcf21b" = Except.error e) →
     probeDeployedAt getCode "0xd1d374dda6c5e1c0fd927de1c6c0e9cb7d7f12d3" = true →
     checkRegistryDeployment getCode networkConfig =
       { isDeployed := true
       , registry := "0xd1d374dda6c5e1c0fd927de1c6c0e9cb7d7f12d3" }) ∧
    (∀ e, getCode networkConfig.registry = Except.error e →
     checkRegistryDeployment getCode networkConfig =
       { isDeployed := false, registry := networkConfig.registry }) := by
  constructor
  · intro hname hprim herr h1
    obtain ⟨e0, he0⟩ := herr
    unfold primaryNotDeployed at hprim
    unfold probeDeployedAt at h1
    cases hp : getCode networkConfig.registry with
    | error e => rw [hp] at hprim; simp at hprim
    | ok c =>
        rw [hp] at hprim
        have hc : codeDeployed c = false := by simpa using hprim
        unfold checkRegistryDeployment
        rw [hp]
        simp only [hc, hname, and_self, if_true]
        unfold knownRegistries
        cases hc1 : getCode "0xd1d374dda6c5e1c0fd927de1c6c0e9cb7d7f12d3" with
        | ok c1 =>
            rw [hc1] at h1
            have h1' : codeDeployed c1 = true := by simpa using h1
            simp [probeCandidates, he0, hc1, h1']
        | error e1 => rw [hc1] at h1; simp at h1
  · intro e he
    unfold checkRegistryDeployment
    rw [he]

/-- C5 witness chain state: primary undeployed, first candidate throws,
second candidate deployed. -/
def c5WitnessChain : GetCode := fun a =>
  if a = "0xdca7ef03e98e0dc2b855be647c39abe984fcf21b" then
    Except.error "candidate query failed"
  else if a = "0xd1d374dda6c5e1c0fd927de1c6c0e9cb7d7f12d3" then
    Except.ok "0x6002600202"
  else Except.ok "0x"

/-- C5 witness chain state: every query throws. -/
def c5AllThrow : GetCode := fun _ => Except.error "rpc down"

/-- Witness for the amended C5 at concrete chain states. -/
theorem claim_C5_witness :
    checkRegistryDeployment c5WitnessChain (SKALE_TITAN_CONFIG env0) =
      { isDeployed := true
      , registry := "0xd1d374dda6c5e1c0fd927de1c6c0e9cb7d7f12d3" } ∧
    checkRegistryDeployment c5AllThrow (SKALE_TITAN_CONFIG env0) =
      { isDeployed := false, registry := (SKALE_TITAN_CONFIG env0).registry } := by
  constructor
  · exact (claim_C5_theorem c5WitnessChain (SKALE_TITAN_CONFIG env0)).1
      (by decide) (by decide) ⟨"candidate query failed", by decide⟩ (by decide)
  · exact (claim_C5_theorem c5AllThrow (SKALE_TITAN_CONFIG env0)).2 "rpc down" rfl

/-- A deterministic engine oracle used for concrete evaluations: always
succeeds and returns an identifier carrying one managed key. -/
def testEngine : Engine := fun o =>
  Except.ok
    { did := "did:key:z6MkTest", provider := o.provider
    , aliasName := o.aliasName, keys := ["key-1"], controllerKeyId := none }

/-- Evaluation of the wallet-based branch of `didCreate`: once the
request selects the branch and the address is valid, the outcome is
decided by the duplicate lookup. -/
theorem didCreate_wallet (engine : Engine) (env : Env) (nowIso : String)
    (nowMs : Nat) (store : List (String × RegEntry)) (req : CreateRequest)
    (w : String) (hp : req.provider = some "did:ethr")
    (hw : req.walletAddress = some w) (hne : w ≠ "")
    (hok : isValidEthAddress w = true) :
    didCreate engine env nowIso nowMs store req =
      match mapGet ("did:ethr:" ++ jsOr req.network (getNetworkConfig env).name
          ++ ":" ++ w) store with
      | some _ =>
          { response := CreateResponse.walletExisting
              { did := "did:ethr:" ++ jsOr req.network (getNetworkConfig env).name
                  ++ ":" ++ w
              , provider := "did:ethr", walletAddress := w
              , network := jsOr req.network (getNetworkConfig env).name }
          , store := store, engineCalls := 0 }
      | none =>
          { response := CreateResponse.walletCreated
              { did := "did:ethr:" ++ jsOr req.network (getNetworkConfig env).name
                  ++ ":" ++ w
              , provider := "did:ethr", walletAddress := w
              , network := jsOr req.network (getNetworkConfig env).name }
          , store := mapSet ("did:ethr:" ++ jsOr req.network
                (getNetworkConfig env).name ++ ":" ++ w)
              (walletEntry nowIso ("did:ethr:" ++ jsOr req.network
                (getNetworkConfig env).name ++ ":" ++ w) w
                (jsOr req.network (getNetworkConfig env).name) req.aliasName)
              store
          , engineCalls := 0 } := by
  unfold didCreate
  rw [hp, hw]
  simp [truthyOpt, hne, hok]

/-- C1: a wallet-linked creation request (method `did:ethr`,
`walletAddress` present and valid) whose `(walletAddress, network)` pair
is already stored returns the stored identity (the pair's deterministic
DID echoed as the response identifier) while leaving the store unchanged
and making zero engine calls; in particular the second of two identical
requests leaves the store exactly as after the first call, performs no
engine call, and responds with the already-exists response for that
pair. -/
theorem claim_C1_wallet_idempotent (engine : Engine) (env : Env)
    (nowIso nowIso2 : String) (nowMs nowMs2 : Nat)
    (store : List (String × RegEntry)) (req : CreateRequest) (w : String)
    (hp : req.provider = some "did:ethr") (hw : req.walletAddress = some w)
    (hne : w ≠ "") (hok : isValidEthAddress w = true) :
    ((mapGet ("did:ethr:" ++ jsOr req.network (getNetworkConfig env).name
        ++ ":" ++ w) store).isSome = true →
      didCreate engine env nowIso nowMs store req =
        { response := CreateResponse.walletExisting
            { did := "did:ethr:" ++ jsOr req.network (getNetworkConfig env).name
                ++ ":" ++ w
            , provider := "did:ethr", walletAddress := w
            , network := jsOr req.network (getNetworkConfig env).name }
        , store := store, engineCalls := 0 }) ∧
    ((didCreate engine env nowIso2 nowMs2
        (didCreate engine env nowIso nowMs store req).store req).store =
          (didCreate engine env nowIso nowMs store req).store ∧
      (didCreate engine env nowIso2 nowMs2
        (didCreate engine env nowIso nowMs store req).store req).engineCalls = 0 ∧
      (didCreate engine env nowIso2 nowMs2
        (didCreate engine env nowIso nowMs store req).store req).response =
          CreateResponse.walletExisting
            { did := "did:ethr:" ++ jsOr req.network (getNetworkConfig env).name
                ++ ":" ++ w
            , provider := "did:ethr", walletAddress := w
            , network := jsOr req.network (getNetworkConfig env).name }) := by
  constructor
  · intro hsome
    rw [didCreate_wallet engine env nowIso nowMs store req w hp hw hne hok]
    obtain ⟨e, he⟩ := Option.isSome_iff_exists.mp hsome
    rw [he]
  · rw [didCreate_wallet engine env nowIso nowMs store req w hp hw hne hok]
    cases hm : mapGet ("did:ethr:" ++ jsOr req.network (getNetworkConfig env).name
        ++ ":" ++ w) store with
    | some e =>
        rw [didCreate_wallet engine env nowIso2 nowMs2 store req w hp hw hne hok]
        rw [hm]
        exact ⟨rfl, rfl, rfl⟩
    | none =>
        rw [didCreate_wallet engine env nowIso2 nowMs2 _ req w hp hw hne hok]
        rw [mapGet_mapSet_self]
        exact ⟨rfl, rfl, rfl⟩

/-- Witness for C1: a concrete wallet-linked pair created twice against
an initially empty store; the store after the second call is exactly the
one-entry store of the first call, no engine call happens, and the second
response is the already-exists response. -/
theorem claim_C1_witness :
    (didCreate testEngine env0 "2024-01-02T00:00:00.000Z" 1
        (didCreate testEngine env0 "2024-01-01T00:00:00.000Z" 0 []
          ⟨some "did:ethr", none, some "0x742d35Cc6634C0532925a3b844Bc9e7595f42bEf",
            some "skale"⟩).store
        ⟨some "did:ethr", none, some "0x742d35Cc6634C0532925a3b844Bc9e7595f42bEf",
          some "skale"⟩).store =
      (didCreate testEngine env0 "2024-01-01T00:00:00.000Z" 0 []
        ⟨some "did:ethr", none, some "0x742d35Cc6634C0532925a3b844Bc9e7595f42bEf",
          some "skale"⟩).store ∧
    (didCreate testEngine env0 "2024-01-02T00:00:00.000Z" 1
        (didCreate testEngine env0 "2024-01-01T00:00:00.000Z" 0 []
          ⟨some "did:ethr", none, some "0x742d35Cc6634C0532925a3b844Bc9e7595f42bEf",
            some "skale"⟩).store
        ⟨some "did:ethr", none, some "0x742d35Cc6634C0532925a3b844Bc9e7595f42bEf",
          some "skale"⟩).engineCalls = 0 ∧
    (didCreate testEngine env0 "2024-01-02T00:00:00.000Z" 1
        (didCreate testEngine env0 "2024-01-01T00:00:00.000Z" 0 []
          ⟨some "did:ethr", none, some "0x742d35Cc6634C0532925a3b844Bc9e7595f42bEf",
            some "skale"⟩).store
        ⟨some "did:ethr", none, some "0x742d35Cc6634C0532925a3b844Bc9e7595f42bEf",
          some "skale"⟩).response =
      CreateResponse.walletExisting
        { did := "did:ethr:skale:0x742d35Cc6634C0532925a3b844Bc9e7595f42bEf"
        , provider := "did:ethr"
        , walletAddress := "0x742d35Cc6634C0532925a3b844Bc9e7595f42bEf"
        , network := "skale" } :=
  (claim_C1_wallet_idempotent testEngine env0
    "2024-01-01T00:00:00.000Z" "2024-01-02T00:00:00.000Z" 0 1 []
    ⟨some "did:ethr", none, some "0x742d35Cc6634C0532925a3b844Bc9e7595f42bEf",
      some "skale"⟩
    "0x742d35Cc6634C0532925a3b844Bc9e7595f42bEf" rfl rfl (by decide) (by decide)).2

/-- C2 counterexample: a request whose `walletAddress` is present but
malformed (`"not-an-address"` fails the regex) while the method is
`did:key` is not rejected: the self-issued branch ignores the wallet
address, calls the engine once, and writes a record — no
`ValidationError`, and the store is mutated. -/
theorem claim_C2_counterexample :
    truthyOpt (some "not-an-address") = true ∧
    isValidEthAddress "not-an-address" = false ∧
    (didCreate testEngine env0 "2024-01-01T00:00:00.000Z" 0 []
      ⟨some "did:key", none, some "not-an-address", none⟩).response ≠
      CreateResponse.invalidAddress ∧
    (didCreate testEngine env0 "2024-01-01T00:00:00.000Z" 0 []
      ⟨some "did:key", none, some "not-an-address", none⟩).engineCalls = 1 ∧
    (didCreate testEngine env0 "2024-01-01T00:00:00.000Z" 0 []
      ⟨some "did:key", none, some "not-an-address", none⟩).store ≠ [] := by
  decide

/-- C2 (amended): for every creation request whose method is `did:ethr`
and whose `walletAddress` is present (non-empty) but fails the
20-byte-hex-with-0x-prefix shape, the operation fails with the 400
validation error before any engine call or store mutation: the store is
returned exactly as it was and the engine-call count is zero. -/
theorem claim_C2_validation_rejects (engine : Engine) (env : Env)
    (nowIso : String) (nowMs : Nat) (store : List (String × RegEntry))
    (req : CreateRequest) (w : String) (hp : req.provider = some "did:ethr")
    (hw : req.walletAddress = some w) (hne : w ≠ "")
    (hbad : isValidEthAddress w = false) :
    didCreate engine env nowIso nowMs store req =
      { response := CreateResponse.invalidAddress
      , store := store, engineCalls := 0 } := by
  unfold didCreate
  rw [hp, hw]
  simp [truthyOpt, hne, hbad]

/-- Witness for the amended C2: the malformed address `"0xNOTANADDRESS"`
on a `did:ethr` request is rejected with the validation error, an
untouched store and zero engine calls. -/
theorem claim_C2_witness :
    didCreate testEngine env0 "2024-01-01T00:00:00.000Z" 0 []
      ⟨some "did:ethr", none, some "0xNOTANADDRESS", none⟩ =
      { response := CreateResponse.invalidAddress
      , store := [], engineCalls := 0 } :=
  claim_C2_validation_rejects testEngine env0 "2024-01-01T00:00:00.000Z" 0 []
    ⟨some "did:ethr", none, some "0xNOTANADDRESS", none⟩ "0xNOTANADDRESS"
    rfl rfl (by decide) (by decide)

/-- C3: every record in the store after a creation call satisfies the
custody invariant, provided every record already in the store does and
the engine only ever returns identifiers carrying at least one key (true
of Veramo's `didManagerCreate`, which generates a key pair): the
wallet-based branch writes a record without key material
(`signingCapable` false, custody WalletLinked), the generated-key and
self-issued branches write the engine identifier with its keys
(`signingCapable` true, custody ServiceManaged/SelfIssued). -/
theorem claim_C3_custody_invariant (engine : Engine) (env : Env)
    (nowIso : String) (nowMs : Nat) (store : List (String × RegEntry))
    (req : CreateRequest)
    (hengine : ∀ o id, engine o = Except.ok id → id.keys ≠ [])
    (hstore : ∀ k e, (k, e) ∈ store → custodyInvariant e) :
    ∀ k e, (k, e) ∈ (didCreate engine env nowIso nowMs store req).store →
      custodyInvariant e := by
  intro k e hmem
  unfold didCreate at hmem
  dsimp only at hmem
  split at hmem
  · split at hmem
    · exact hstore k e hmem
    · split at hmem
      · exact hstore k e hmem
      · rcases mem_mapSet _ _ _ _ _ hmem with ⟨hk, he⟩ | hmem'
        · subst he
          simp [custodyInvariant, signingCapable, walletEntry]
        · exact hstore k e hmem'
  · split at hmem
    · split at hmem
      · exact hstore k e hmem
      · next id heq =>
          rcases mem_mapSet _ _ _ _ _ hmem with ⟨hk, he⟩ | hmem'
          · subst he
            have hkeys := hengine _ id heq
            simp [custodyInvariant, signingCapable, generatedEntry, hkeys]
          · exact hstore k e hmem'
    · split at hmem
      · split at hmem
        · exact hstore k e hmem
        · next id heq =>
            rcases mem_mapSet _ _ _ _ _ hmem with ⟨hk, he⟩ | hmem'
            · subst he
              have hkeys := hengine _ id heq
              simp [custodyInvariant, signingCapable, selfIssuedEntry, hkeys]
            · exact hstore k e hmem'
      · exact hstore k e hmem

/-- Witness for C3: the record written by a concrete self-issued creation
against an empty store satisfies the custody invariant. -/
theorem claim_C3_witness :
    custodyInvariant (selfIssuedEntry "2024-01-01T00:00:00.000Z"
      { did := "did:key:z6MkTest", provider := "did:key", aliasName := "key-0"
      , keys := ["key-1"], controllerKeyId := none }) :=
  claim_C3_custody_invariant testEngine env0 "2024-01-01T00:00:00.000Z" 0 []
    ⟨some "did:key", none, none, none⟩
    (fun o id h => by
      cases h
      simp [testEngine])
    (fun k e h => absurd h (List.not_mem_nil _))
    "did:key:z6MkTest"
    (selfIssuedEntry "2024-01-01T00:00:00.000Z"
      { did := "did:key:z6MkTest", provider := "did:key", aliasName := "key-0"
      , keys := ["key-1"], controllerKeyId := none })
    (by decide)

/-- C9: at the failing input `{provider: "did:web"}` (a method that is
neither `did:ethr` nor `did:key`), the handler's else branch builds the
intended 400 response listing the supported variants, but its object
literal reads the undeclared variable `error`, so a `ReferenceError`
(message `error is not defined`) is thrown before the 400 is sent and the
catch block answers with a 500 carrying that message instead of a client
error listing the variants. No record is written and the engine is never
called. -/
theorem claim_C9_theorem :
    didCreate testEngine env0 "2024-01-01T00:00:00.000Z" 0 []
      ⟨some "did:web", none, none, none⟩ =
      { response := CreateResponse.creationError "error is not defined"
      , store := [], engineCalls := 0 } := by
  decide

/-- The catch-block classification embeds the original resolver message
verbatim inside the reported message. -/
theorem classifyResolutionError_preserves (msg : String) :
    ∃ p s, classifyResolutionError msg = p ++ msg ++ s := by
  unfold classifyResolutionError
  split
  · exact ⟨"Registry contract error: ",
      ". For decentralized DIDs, use did:ethr with a wallet address or did:key for self-issued DIDs.",
      rfl⟩
  · exact ⟨"", "", by simp⟩

/-- A resolver throw on the non-SKALE path surfaces as the classified
500 error. -/
theorem finalResolve_error (resolver : ResolverOracle) (did msg : String)
    (hfail : resolver did = Except.error msg) :
    finalResolve resolver did =
      ResolveResponse.resolutionError (classifyResolutionError msg) did := by
  unfold finalResolve
  rw [hfail]

/-- C6: for a well-formed blockchain-anchored DID
`did:ethr:<network>:<address>` on a SKALE network (`skale-titan` or
`skale`), a failing primary resolution does not fail the request: the
handler answers with the synthesized fallback document, which has exactly
one verification method whose controller is the DID itself, both
`authentication` and `assertionMethod` referencing that method's id, and
whose resolution metadata is tagged `fallback: true`. -/
theorem claim_C6_fallback_resolution (resolver : ResolverOracle) (env : Env)
    (did network address msg : String)
    (hpre : jsStartsWith did "did:ethr:" = true)
    (hparts : jsSplit ':' did = ["did", "ethr", network, address])
    (hnet : network = "skale-titan" ∨ network = "skale")
    (hfail : resolver did = Except.error msg) :
    resolveDid resolver env did =
      ResolveResponse.fallbackResolved (fallbackResolution did address) ∧
    (fallbackResolution did address).didDocument.verificationMethod =
      [ { id := did ++ "#controller"
        , methodType := "EcdsaSecp256k1RecoveryMethod2020"
        , controller := did
        , blockchainAccountId := "eip155:1020352220:" ++ address } ] ∧
    (fallbackResolution did address).didDocument.authentication =
      [did ++ "#controller"] ∧
    (fallbackResolution did address).didDocument.assertionMethod =
      [did ++ "#controller"] ∧
    (fallbackResolution did address).didDocumentMetadata.fallback = true := by
  refine ⟨?_, rfl, rfl, rfl, rfl⟩
  unfold resolveDid
  rw [hpre]
  simp only [if_true, hparts]
  rcases hnet with h | h <;>
    · subst h
      simp [hfail]

/-- Witness for C6: a concrete SKALE DID with a failing resolver yields
the tagged fallback document. -/
theorem claim_C6_witness :
    resolveDid (fun _ => Except.error "registry call reverted") env0
      "did:ethr:skale-titan:0x742d35Cc6634C0532925a3b844Bc9e7595f42bEf" =
      ResolveResponse.fallbackResolved
        (fallbackResolution
          "did:ethr:skale-titan:0x742d35Cc6634C0532925a3b844Bc9e7595f42bEf"
          "0x742d35Cc6634C0532925a3b844Bc9e7595f42bEf") ∧
    (fallbackResolution
        "did:ethr:skale-titan:0x742d35Cc6634C0532925a3b844Bc9e7595f42bEf"
        "0x742d35Cc6634C0532925a3b844Bc9e7595f42bEf").didDocumentMetadata.fallback
      = true :=
  ⟨(claim_C6_fallback_resolution (fun _ => Except.error "registry call reverted")
      env0 "did:ethr:skale-titan:0x742d35Cc6634C0532925a3b844Bc9e7595f42bEf"
      "skale-titan" "0x742d35Cc6634C0532925a3b844Bc9e7595f42bEf"
      "registry call reverted" (by decide) (by decide) (Or.inl rfl) rfl).1,
    (claim_C6_fallback_resolution (fun _ => Except.error "registry call reverted")
      env0 "did:ethr:skale-titan:0x742d35Cc6634C0532925a3b844Bc9e7595f42bEf"
      "skale-titan" "0x742d35Cc6634C0532925a3b844Bc9e7595f42bEf"
      "registry call reverted" (by decide) (by decide) (Or.inl rfl) rfl).2.2.2.2⟩

/-- C7: for a DID that does not match the recognized fallback shape
(malformed, non-`did:ethr`, or on a non-SKALE network), a failing
resolution never produces the synthesized fallback document: the request
fails, either with the 400 unconfigured-network rejection (an ethr DID on
a network that is neither SKALE nor the configured one, raised before the
resolver is consulted) or with the 500 resolution error whose message
preserves the original failure message verbatim inside the classified
message (registry-semantic failures are wrapped with a hint, others pass
through unchanged). -/
theorem claim_C7_error_preserved (resolver : ResolverOracle) (env : Env)
    (did msg : String) (hshape : ¬ fallbackShape did)
    (hfail : resolver did = Except.error msg) :
    isFallbackResponse (resolveDid resolver env did) = false ∧
    (resolveDid resolver env did =
        ResolveResponse.networkNotConfigured ((jsSplit ':' did).getD 2 "")
          (getNetworkConfig env).name ∨
      (resolveDid resolver env did =
          ResolveResponse.resolutionError (classifyResolutionError msg) did ∧
        ∃ p s, classifyResolutionError msg = p ++ msg ++ s)) := by
  have hfinal : finalResolve resolver did =
      ResolveResponse.resolutionError (classifyResolutionError msg) did :=
    finalResolve_error resolver did msg hfail
  unfold fallbackShape at hshape
  by_cases h1 : jsStartsWith did "did:ethr:" = true
  · by_cases h2 : (jsSplit ':' did).length ≥ 4
    · have hns : ¬((jsSplit ':' did).getD 2 "" = "skale-titan" ∨
          (jsSplit ':' did).getD 2 "" = "skale") :=
        fun hc => hshape ⟨h1, h2, hc⟩
      have h3a : (jsSplit ':' did).getD 2 "" ≠ "skale-titan" :=
        fun h => hns (Or.inl h)
      have h3b : (jsSplit ':' did).getD 2 "" ≠ "skale" :=
        fun h => hns (Or.inr h)
      unfold resolveDid
      rw [if_pos h1, if_pos h2, if_neg hns]
      by_cases h4 : (jsSplit ':' did).getD 2 "" = (getNetworkConfig env).name
      · rw [if_neg (fun hcon => hcon.1 h4), hfinal]
        exact ⟨rfl, Or.inr ⟨rfl, classifyResolutionError_preserves msg⟩⟩
      · rw [if_pos ⟨h4, h3b, h3a⟩]
        exact ⟨rfl, Or.inl rfl⟩
    · unfold resolveDid
      rw [if_pos h1, if_neg h2, hfinal]
      exact ⟨rfl, Or.inr ⟨rfl, classifyResolutionError_preserves msg⟩⟩
  · unfold resolveDid
    rw [if_neg h1, hfinal]
    exact ⟨rfl, Or.inr ⟨rfl, classifyResolutionError_preserves msg⟩⟩

/-- Witness for C7: a malformed non-ethr DID with a failing resolver is
answered with the classified 500 (here the message passes through
verbatim) and not with a fallback document. -/
theorem claim_C7_witness :
    ¬ fallbackShape "did:key:z6MkFoo" ∧
    isFallbackResponse (resolveDid (fun _ => Except.error "resolver unavailable")
      env0 "did:key:z6MkFoo") = false ∧
    (resolveDid (fun _ => Except.error "resolver unavailable") env0
        "did:key:z6MkFoo" =
      ResolveResponse.networkNotConfigured
        ((jsSplit ':' "did:key:z6MkFoo").getD 2 "") (getNetworkConfig env0).name ∨
      (resolveDid (fun _ => Except.error "resolver unavailable") env0
          "did:key:z6MkFoo" =
        ResolveResponse.resolutionError
          (classifyResolutionError "resolver unavailable") "did:key:z6MkFoo" ∧
        ∃ p s, classifyResolutionError "resolver unavailable" =
          p ++ "resolver unavailable" ++ s)) :=
  ⟨by decide,
    (claim_C7_error_preserved (fun _ => Except.error "resolver unavailable")
      env0 "did:key:z6MkFoo" "resolver unavailable" (by decide) rfl).1,
    (claim_C7_error_preserved (fun _ => Except.error "resolver unavailable")
      env0 "did:key:z6MkFoo" "resolver unavailable" (by decide) rfl).2⟩

/-- C10: whenever the standard verification of `verify-skale` throws, a
credential supplied as a JSON object with a truthy `credentialSubject`
field is answered with the success response `verification.verified: true`
(`method: "fallback_object"`). No signature check happens on this path:
the conclusion holds for every decode oracle and every clock value, and
the `verified` flag is the literal `true` of the source, independent of
the credential's contents. -/
theorem claim_C10_object_fallback
    (verify : JSValue → Except String VerificationOutcome)
    (decodePayload : String → Except String JSValue) (nowSec : Int)
    (fields : List (String × JSValue)) (registryError : String)
    (hcs : truthyProp (lookupField fields "credentialSubject") = true)
    (hfail : verify (JSValue.objV fields) = Except.error registryError) :
    verifySkale verify decodePayload nowSec (JSValue.objV fields) =
      SkaleVerifyResponse.fallbackObject true (JSValue.objV fields) := by
  unfold verifySkale
  rw [hfail]
  unfold fallbackVerify jwtFallbackBranch objectFallbackBranch
  simp [truthyJS, hcs]

/-- The concrete credential object of the C10 witness. -/
def c10Credential : JSValue :=
  JSValue.objV [("credentialSubject", JSValue.objV [("name", JSValue.strV "Alice")])]

/-- Witness for C10: a concrete object credential with a
`credentialSubject` field, a standard verification that throws, and an
arbitrary decode oracle produce the `verified: true` fallback response. -/
theorem claim_C10_witness :
    verifySkale (fun _ => Except.error "SKALE registry revert")
      (fun _ => Except.error "decode never called") 1700000000 c10Credential =
      SkaleVerifyResponse.fallbackObject true c10Credential :=
  claim_C10_object_fallback (fun _ => Except.error "SKALE registry revert")
    (fun _ => Except.error "decode never called") 1700000000
    [("credentialSubject", JSValue.objV [("name", JSValue.strV "Alice")])]
    "SKALE registry revert" rfl rfl

end Veramo
